import Mathlib

/-!
# Verification of the SpinScribe HITL approval-workflow core

Shallow embedding of `src/spinscribe/webhooks/{models,storage,handlers,server}.py`:
the workflow store, the approval registry, the checkpoint handlers, the decision
processor, and the approval-submission endpoint.

Modelling conventions:
* Python dicts used as insertion-ordered maps (`_workflows`, `_approvals`) are
  association lists; insert-or-update keeps the position of an existing key and
  appends a fresh key at the end, as CPython dicts do.
* Timestamps (`datetime.utcnow().isoformat()`) are `Nat` values passed in
  explicitly as a `now` parameter; ISO-8601 strings compare lexicographically
  in the same order as the instants they denote, so `<` on `Nat` is faithful.
  A day is 86400 such units.
* `metadata` dicts are projected onto the five keys the code actually reads
  (`client_name`, `topic`, `content_type`, `audience`, `ai_language_code`),
  each an `Option String` (absent key = `none`).
* `uuid`-generated approval ids are explicit arguments to the handlers.
-/

namespace Spinscribe

/-- `WorkflowStatus` enum from models.py. -/
inductive WorkflowStatus where
  | in_progress
  | awaiting_approval
  | approved
  | rejected
  | revision_requested
  | completed
  | failed
deriving DecidableEq, Repr

/-- The `.value` string of a `WorkflowStatus`. -/
def statusValue : WorkflowStatus → String
  | .in_progress => "in_progress"
  | .awaiting_approval => "awaiting_approval"
  | .approved => "approved"
  | .rejected => "rejected"
  | .revision_requested => "revision_requested"
  | .completed => "completed"
  | .failed => "failed"

/-- `CheckpointType` enum from models.py. -/
inductive CheckpointType where
  | brand_voice
  | style_compliance
  | final_qa
deriving DecidableEq, Repr

/-- The `.value` string of a `CheckpointType`. -/
def checkpointValue : CheckpointType → String
  | .brand_voice => "brand_voice"
  | .style_compliance => "style_compliance"
  | .final_qa => "final_qa"

/-- `ApprovalDecision` enum from models.py. -/
inductive ApprovalDecision where
  | approve
  | reject
  | revise
deriving DecidableEq, Repr

/-- The `.value` string of an `ApprovalDecision`. -/
def decisionValue : ApprovalDecision → String
  | .approve => "approve"
  | .reject => "reject"
  | .revise => "revise"

/-- The metadata dict, projected onto the keys the code reads via `.get`. -/
structure Metadata where
  client_name : Option String
  topic : Option String
  content_type : Option String
  audience : Option String
  ai_language_code : Option String
deriving DecidableEq, Repr

/-- `ApprovalRequest` pydantic model from models.py. -/
structure ApprovalRequest where
  approval_id : String
  workflow_id : String
  checkpoint_type : CheckpointType
  title : String
  description : String
  content : String
  questions : List String
  options : List String
  metadata : Metadata
  created_at : Nat
  priority : String
deriving DecidableEq, Repr

/-- `ApprovalResponse` pydantic model from models.py.  `specific_changes` is a
list with default `[]` (the code normalises `None` with `or []`). -/
structure ApprovalResponse where
  decision : ApprovalDecision
  checkpoint : CheckpointType
  feedback : String
  reviewer_name : Option String
  comments : Option String
  specific_changes : List String
  timestamp : Nat
deriving DecidableEq, Repr

/-- One entry of a workflow's `approval_history` (storage.py,
`record_approval_decision`). -/
structure ApprovalRecord where
  checkpoint : CheckpointType
  decision : ApprovalDecision
  feedback : Option String
  timestamp : Nat
deriving DecidableEq, Repr

/-- A workflow record as stored in `WorkflowStorage._workflows`.
`checkpoint_type` and `approval_response` are dict keys that only appear after
`save_checkpoint_state` / `submit_approval` touch the record, hence `Option`. -/
structure Workflow where
  workflow_id : String
  client_name : String
  topic : String
  content_type : String
  audience : String
  ai_language_code : String
  status : WorkflowStatus
  current_checkpoint : Option CheckpointType
  created_at : Nat
  updated_at : Nat
  task_outputs : List (String × String)
  approval_history : List ApprovalRecord
  content : String
  metadata : Metadata
  approval_request : Option ApprovalRequest
  checkpoint_type : Option CheckpointType
  approval_response : Option ApprovalResponse
deriving DecidableEq, Repr

/-- `PendingApprovalSummary` pydantic model from models.py. -/
structure PendingApprovalSummary where
  workflow_id : String
  checkpoint : CheckpointType
  client_name : String
  topic : String
  created_at : Nat
  approval_id : String
deriving DecidableEq, Repr

/-! ## Association lists standing for CPython dicts -/

/-- Dict lookup: first (hence unique, when keys are distinct) binding wins. -/
def assocGet {α : Type} : List (String × α) → String → Option α
  | [], _ => none
  | (k', v') :: rest, k => if k' = k then some v' else assocGet rest k

/-- Dict insert-or-update: an existing key keeps its position, a fresh key is
appended at the end, matching CPython dict semantics. -/
def assocSet {α : Type} : List (String × α) → String → α → List (String × α)
  | [], k, v => [(k, v)]
  | (k', v') :: rest, k, v =>
      if k' = k then (k, v) :: rest else (k', v') :: assocSet rest k v

/-- The state of `WorkflowStorage`: the workflow dict and the approval
registry dict. -/
structure WorkflowStorage where
  workflows : List (String × Workflow)
  approvals : List (String × ApprovalRequest)
deriving DecidableEq, Repr

/-- The empty store created by `WorkflowStorage.__init__`. -/
def emptyStorage : WorkflowStorage := ⟨[], []⟩

/-! ## Storage operations (storage.py) -/

/-- The fresh record built by `WorkflowStorage.create_workflow`. -/
def freshWorkflow (workflow_id client_name topic content_type audience
    ai_language_code : String) (now : Nat) : Workflow :=
  { workflow_id := workflow_id
    client_name := client_name
    topic := topic
    content_type := content_type
    audience := audience
    ai_language_code := ai_language_code
    status := .in_progress
    current_checkpoint := none
    created_at := now
    updated_at := now
    task_outputs := []
    approval_history := []
    content := ""
    metadata := ⟨none, none, none, none, none⟩
    approval_request := none
    checkpoint_type := none
    approval_response := none }

/-- `WorkflowStorage.create_workflow`: unconditionally writes a fresh record
under `workflow_id` and returns it. -/
def create_workflow (s : WorkflowStorage) (workflow_id client_name topic
    content_type audience ai_language_code : String) (now : Nat) :
    Workflow × WorkflowStorage :=
  let w := freshWorkflow workflow_id client_name topic content_type audience
    ai_language_code now
  (w, { s with workflows := assocSet s.workflows workflow_id w })

/-- `WorkflowStorage.get_workflow`. -/
def get_workflow (s : WorkflowStorage) (workflow_id : String) :
    Option Workflow :=
  assocGet s.workflows workflow_id

/-- `WorkflowStorage.update_workflow_status`: returns `false` and leaves the
store unchanged when the workflow is missing; otherwise sets `status`, sets
`current_checkpoint` when a checkpoint is given, bumps `updated_at`. -/
def update_workflow_status (s : WorkflowStorage) (workflow_id : String)
    (status : WorkflowStatus) (checkpoint : Option CheckpointType)
    (now : Nat) : Bool × WorkflowStorage :=
  match assocGet s.workflows workflow_id with
  | none => (false, s)
  | some w =>
      let w' := { w with
        status := status
        current_checkpoint := checkpoint.elim w.current_checkpoint some
        updated_at := now }
      (true, { s with workflows := assocSet s.workflows workflow_id w' })

/-- `WorkflowStorage.save_checkpoint_state`: get-or-create the workflow (the
create path reads the five metadata keys with fallbacks "Unknown"/"unknown"/""),
then overwrite `content`, `metadata`, `checkpoint_type`, `current_checkpoint`,
set `status = AWAITING_APPROVAL`, store the approval request, bump
`updated_at`, and register the approval under its `approval_id`. -/
def save_checkpoint_state (s : WorkflowStorage) (workflow_id : String)
    (checkpoint_type : CheckpointType) (content : String) (metadata : Metadata)
    (approval_request : ApprovalRequest) (now : Nat) :
    Bool × WorkflowStorage :=
  let base : Workflow :=
    match assocGet s.workflows workflow_id with
    | some w => w
    | none =>
        freshWorkflow workflow_id
          (metadata.client_name.getD "Unknown")
          (metadata.topic.getD "Unknown")
          (metadata.content_type.getD "unknown")
          (metadata.audience.getD "unknown")
          (metadata.ai_language_code.getD "")
          now
  let w' : Workflow := { base with
    content := content
    metadata := metadata
    checkpoint_type := some checkpoint_type
    current_checkpoint := some checkpoint_type
    status := .awaiting_approval
    approval_request := some approval_request
    updated_at := now }
  (true,
    { workflows := assocSet s.workflows workflow_id w'
      approvals := assocSet s.approvals approval_request.approval_id
        approval_request })

/-- `WorkflowStorage.record_approval_decision`: appends to
`approval_history`, bumps `updated_at`; `false` when the workflow is missing. -/
def record_approval_decision (s : WorkflowStorage) (workflow_id : String)
    (checkpoint : CheckpointType) (decision : ApprovalDecision)
    (feedback : Option String) (now : Nat) : Bool × WorkflowStorage :=
  match assocGet s.workflows workflow_id with
  | none => (false, s)
  | some w =>
      let w' := { w with
        approval_history := w.approval_history ++
          [⟨checkpoint, decision, feedback, now⟩]
        updated_at := now }
      (true, { s with workflows := assocSet s.workflows workflow_id w' })

/-- Ordering used by `get_pending_approvals`: ascending `created_at`. -/
def byCreatedAt (a b : PendingApprovalSummary) : Prop :=
  a.created_at ≤ b.created_at

instance : DecidableRel byCreatedAt := fun a b =>
  inferInstanceAs (Decidable (a.created_at ≤ b.created_at))

instance : IsTotal PendingApprovalSummary byCreatedAt :=
  ⟨fun a b => Nat.le_total a.created_at b.created_at⟩

instance : IsTrans PendingApprovalSummary byCreatedAt :=
  ⟨fun _ _ _ h h' => Nat.le_trans h h'⟩

/-- The summary `get_pending_approvals` builds for one registry entry, when the
owning workflow exists and is awaiting approval. -/
def summaryOf (s : WorkflowStorage) (p : String × ApprovalRequest) :
    Option PendingApprovalSummary :=
  match assocGet s.workflows p.2.workflow_id with
  | none => none
  | some w =>
      if w.status = .awaiting_approval then
        some { workflow_id := p.2.workflow_id
               checkpoint := p.2.checkpoint_type
               client_name := w.client_name
               topic := w.topic
               created_at := p.2.created_at
               approval_id := p.1 }
      else none

/-- `WorkflowStorage.get_pending_approvals`: walk the registry, keep entries
whose workflow exists with status AWAITING_APPROVAL, then sort by `created_at`
ascending (Python's stable `list.sort`). -/
def get_pending_approvals (s : WorkflowStorage) :
    List PendingApprovalSummary :=
  List.insertionSort byCreatedAt (s.approvals.filterMap (summaryOf s))

/-- Length of one day in the `Nat` time scale. -/
def secondsPerDay : Nat := 86400

/-- `WorkflowStorage.cleanup_old_workflows`: remove every workflow whose
`updated_at` is below `now - days`, whatever its status, and return the count
removed. -/
def cleanup_old_workflows (s : WorkflowStorage) (days : Nat) (now : Nat) :
    Nat × WorkflowStorage :=
  let cutoff := now - days * secondsPerDay
  let keep := s.workflows.filter (fun p => ¬ p.2.updated_at < cutoff)
  ((s.workflows.filter (fun p => p.2.updated_at < cutoff)).length,
    { s with workflows := keep })

/-- Module-level `cleanup_old_workflows(hours)` wrapper: `days = hours // 24`,
clamped up to `1`. -/
def hoursToDays (hours : Nat) : Nat :=
  let days := hours / 24
  if days < 1 then 1 else days

/-- Module-level convenience wrapper `cleanup_old_workflows(hours=24)` in
storage.py: converts hours to days and calls the store's cleanup. -/
def cleanup_old_workflows_hours (s : WorkflowStorage) (hours : Nat)
    (now : Nat) : Nat × WorkflowStorage :=
  cleanup_old_workflows s (hoursToDays hours) now

/-! ## Decision processor (handlers.py) -/

/-- The dict returned by `process_approval_decision` and its three helpers.
Keys absent from a given branch are `none`. -/
structure DecisionResult where
  next_action : String
  message : String
  next_task : Option String
  restart_task : Option String
  issues : Option (List String)
  revision_items : Option (List String)
  feedback : Option String
  auto_resume : Bool
deriving DecidableEq, Repr

/-- `_get_approval_info`: next-action table for approve decisions. -/
def get_approval_info (checkpoint_type : CheckpointType) : DecisionResult :=
  match checkpoint_type with
  | .brand_voice =>
      { next_action := "proceed_to_content_strategy"
        message := "Brand voice approved. Content Strategy task will begin."
        next_task := some "content_strategy_task"
        restart_task := none, issues := none, revision_items := none
        feedback := none, auto_resume := true }
  | .style_compliance =>
      { next_action := "proceed_to_final_qa"
        message := "Style compliance approved. Final QA task will begin."
        next_task := some "final_quality_assurance_task"
        restart_task := none, issues := none, revision_items := none
        feedback := none, auto_resume := true }
  | .final_qa =>
      { next_action := "deliver_content"
        message := "Final QA approved. Content is ready for delivery."
        next_task := some "content_delivery_task"
        restart_task := none, issues := none, revision_items := none
        feedback := none, auto_resume := true }

/-- `_get_rejection_info`: next-action table for reject decisions, keyed by the
checkpoint's string value; `issues` carries `response.specific_changes`. -/
def get_rejection_info (checkpoint_type : CheckpointType)
    (response : ApprovalResponse) : DecisionResult :=
  match checkpoint_type with
  | .brand_voice =>
      { next_action := "restart_from_brand_voice"
        message := "Rejected. Will restart from Brand Voice Analysis task."
        next_task := none
        restart_task := some "brand_voice_analysis_task"
        issues := some response.specific_changes
        revision_items := none, feedback := none, auto_resume := true }
  | .style_compliance =>
      { next_action := "restart_from_content_generation"
        message := "Rejected. Will restart from Content Generation task."
        next_task := none
        restart_task := some "content_generation_task"
        issues := some response.specific_changes
        revision_items := none, feedback := none, auto_resume := true }
  | .final_qa =>
      { next_action := "restart_from_style_compliance"
        message := "Rejected. Will restart from Style Compliance Review task."
        next_task := none
        restart_task := some "style_compliance_review_task"
        issues := some response.specific_changes
        revision_items := none, feedback := none, auto_resume := true }

/-- `checkpoint_value.replace('_', ' ').title()` on the three checkpoint
values ("final_qa".title() gives "Final Qa"). -/
def checkpointTitled : CheckpointType → String
  | .brand_voice => "Brand Voice"
  | .style_compliance => "Style Compliance"
  | .final_qa => "Final Qa"

/-- `_get_revision_info`: revise decisions get
`next_action = "revise_" + value` and a title-cased message. -/
def get_revision_info (checkpoint_type : CheckpointType)
    (response : ApprovalResponse) : DecisionResult :=
  { next_action := "revise_" ++ checkpointValue checkpoint_type
    message := "Revision requested. " ++ checkpointTitled checkpoint_type ++
      " Agent will address issues."
    next_task := none, restart_task := none, issues := none
    revision_items := some response.specific_changes
    feedback := some response.feedback
    auto_resume := true }

/-- `process_approval_decision` in handlers.py, on a workflow state whose
`checkpoint_type` enumerates correctly (the `_ensure_checkpoint_enum` failure
path is handled at the endpoint): dispatches on `response.decision` — NOT on
`response.checkpoint` — against the workflow's recorded checkpoint type. -/
def process_approval_decision (checkpoint_type : CheckpointType)
    (response : ApprovalResponse) : DecisionResult :=
  match response.decision with
  | .approve => get_approval_info checkpoint_type
  | .reject => get_rejection_info checkpoint_type response
  | .revise => get_revision_info checkpoint_type response

/-! ## Checkpoint handlers (handlers.py) -/

/-- Webhook payload fields the HITL endpoints read. -/
structure WebhookPayload where
  workflow_id : String
  checkpoint_type : CheckpointType
  content : String
  metadata : Metadata
deriving DecidableEq, Repr

/-- `handle_brand_voice_checkpoint`: builds the approval request for
checkpoint 1; the generated uuid suffix and the current time are explicit
arguments. -/
def handle_brand_voice_checkpoint (payload : WebhookPayload)
    (uuid_hex12 : String) (now : Nat) : ApprovalRequest :=
  let client_name := payload.metadata.client_name.getD "Unknown Client"
  let topic := payload.metadata.topic.getD "Unknown Topic"
  { approval_id := "appr_" ++ uuid_hex12
    workflow_id := payload.workflow_id
    checkpoint_type := .brand_voice
    title := "Brand Voice Analysis: " ++ client_name ++ " - " ++ topic
    description := "The Brand Voice Specialist has analyzed the client's existing content and generated AI Language Code parameters. Please review the analysis and approve if the parameters accurately capture the brand's voice."
    content := payload.content
    questions := [
      "Do the AI Language Code parameters match the client's brand voice?",
      "Is the tone analysis accurate?",
      "Are the vocabulary and formality levels appropriate?"]
    options := ["approve", "reject", "revise"]
    metadata := ⟨none, none, none, none, none⟩
    created_at := now
    priority := "high" }

/-- `handle_style_compliance_checkpoint`: approval request for checkpoint 2. -/
def handle_style_compliance_checkpoint (payload : WebhookPayload)
    (uuid_hex12 : String) (now : Nat) : ApprovalRequest :=
  let client_name := payload.metadata.client_name.getD "Unknown Client"
  let topic := payload.metadata.topic.getD "Unknown Topic"
  { approval_id := "appr_" ++ uuid_hex12
    workflow_id := payload.workflow_id
    checkpoint_type := .style_compliance
    title := "Style Compliance Review: " ++ client_name ++ " - " ++ topic
    description := "The Style Compliance Agent has reviewed content adherence to brand voice and style guidelines. Please approve if the content matches the approved brand voice parameters."
    content := payload.content
    questions := [
      "Does the content match the approved brand voice?",
      "Are all style guidelines followed?",
      "Is the tone consistent throughout?"]
    options := ["approve", "reject", "revise"]
    metadata := ⟨none, none, none, none, none⟩
    created_at := now
    priority := "medium" }

/-- `handle_final_qa_checkpoint`: approval request for checkpoint 3. -/
def handle_final_qa_checkpoint (payload : WebhookPayload)
    (uuid_hex12 : String) (now : Nat) : ApprovalRequest :=
  let client_name := payload.metadata.client_name.getD "Unknown Client"
  let topic := payload.metadata.topic.getD "Unknown Topic"
  { approval_id := "appr_" ++ uuid_hex12
    workflow_id := payload.workflow_id
    checkpoint_type := .final_qa
    title := "Final QA: " ++ client_name ++ " - " ++ topic ++
      " (Ready for Delivery)"
    description := "The Quality Assurance Editor has completed final review. This is the last checkpoint before content delivery. Please provide final approval or request any last-minute changes."
    content := payload.content
    questions := [
      "Is the content ready for publication?",
      "Are all quality standards met?",
      "Are there any last-minute changes needed?"]
    options := ["approve", "reject", "revise"]
    metadata := ⟨none, none, none, none, none⟩
    created_at := now
    priority := "high" }

/-! ## Endpoints (server.py) -/

/-- HTTP-level errors `submit_approval` can raise.  `internalError` stands for
the 500 produced when `_ensure_checkpoint_enum` raises on a workflow state
without a valid `checkpoint_type`. -/
inductive SubmitError where
  | notFound
  | invalidState (current : WorkflowStatus)
  | internalError
deriving DecidableEq, Repr

/-- HTTP status code of each error branch in `submit_approval`. -/
def errorStatusCode : SubmitError → Nat
  | .notFound => 404
  | .invalidState _ => 400
  | .internalError => 500

/-- The `detail` string of each `HTTPException` raised by `submit_approval`. -/
def errorDetail : SubmitError → String
  | .notFound => "Workflow not found"
  | .invalidState current =>
      "Workflow not awaiting approval. Current status: " ++ statusValue current
  | .internalError => "Internal Server Error"

/-- The success body of `POST /approvals/{workflow_id}/submit`. -/
structure SubmitOk where
  workflow_id : String
  decision : ApprovalDecision
  next_action : String
  message : String
  auto_resume : Bool
deriving DecidableEq, Repr

/-- Status applied by the endpoint after processing: approve → APPROVED,
reject → REJECTED, revise → REVISION_REQUESTED. -/
def statusOfDecision : ApprovalDecision → WorkflowStatus
  | .approve => .approved
  | .reject => .rejected
  | .revise => .revision_requested

/-- `submit_approval` in server.py: 404 when the workflow is unknown, 400
(with the current status in the detail) when it is not AWAITING_APPROVAL;
otherwise process the decision against the workflow's recorded
`checkpoint_type`, update the status via `update_workflow_status`, then write
`approval_response` and `updated_at` directly onto the record.  The response's
own `checkpoint` field is never compared with the workflow's checkpoint. -/
def submit_approval (s : WorkflowStorage) (workflow_id : String)
    (response : ApprovalResponse) (now : Nat) :
    Except SubmitError SubmitOk × WorkflowStorage :=
  match assocGet s.workflows workflow_id with
  | none => (.error .notFound, s)
  | some w =>
      if w.status ≠ .awaiting_approval then
        (.error (.invalidState w.status), s)
      else
        match w.checkpoint_type with
        | none => (.error .internalError, s)
        | some ct =>
            let result := process_approval_decision ct response
            let new_status := statusOfDecision response.decision
            let s1 := (update_workflow_status s workflow_id new_status
              none now).2
            let s2 :=
              match assocGet s1.workflows workflow_id with
              | none => s1
              | some w1 =>
                  let w2 := { w1 with
                    approval_response := some response
                    updated_at := now }
                  { s1 with workflows := assocSet s1.workflows workflow_id w2 }
            (.ok { workflow_id := workflow_id
                   decision := response.decision
                   next_action := result.next_action
                   message := result.message
                   auto_resume := true }, s2)

/-- The acknowledgment body of a HITL webhook endpoint. -/
structure WebhookAck where
  status : String
  workflow_id : String
  checkpoint : String
  approval_id : String
deriving DecidableEq, Repr

/-- Result of a HITL webhook endpoint: the acknowledgment, the store after
`save_workflow_state`, and the `hours` argument of the
`cleanup_old_workflows` background task it schedules. -/
structure WebhookOutcome where
  ack : WebhookAck
  store : WorkflowStorage
  scheduled_cleanup_hours : Nat
deriving Repr

/-- `brand_voice_webhook` (`POST /api/v1/webhook/hitl/brand-voice`): handler
builds the approval request, `save_workflow_state` persists it, then
`cleanup_old_workflows` is scheduled with `hours=24`. -/
def brand_voice_webhook (s : WorkflowStorage) (payload : WebhookPayload)
    (uuid_hex12 : String) (now : Nat) : WebhookOutcome :=
  let approval_request := handle_brand_voice_checkpoint payload uuid_hex12 now
  let s' := (save_checkpoint_state s payload.workflow_id .brand_voice
    payload.content payload.metadata approval_request now).2
  { ack := { status := "received", workflow_id := payload.workflow_id
             checkpoint := "brand_voice"
             approval_id := approval_request.approval_id }
    store := s'
    scheduled_cleanup_hours := 24 }

/-- `style_compliance_webhook` (`POST /api/v1/webhook/hitl/style-compliance`). -/
def style_compliance_webhook (s : WorkflowStorage) (payload : WebhookPayload)
    (uuid_hex12 : String) (now : Nat) : WebhookOutcome :=
  let approval_request := handle_style_compliance_checkpoint payload
    uuid_hex12 now
  let s' := (save_checkpoint_state s payload.workflow_id .style_compliance
    payload.content payload.metadata approval_request now).2
  { ack := { status := "received", workflow_id := payload.workflow_id
             checkpoint := "style_compliance"
             approval_id := approval_request.approval_id }
    store := s'
    scheduled_cleanup_hours := 24 }

/-- `final_qa_webhook` (`POST /api/v1/webhook/hitl/final-qa`). -/
def final_qa_webhook (s : WorkflowStorage) (payload : WebhookPayload)
    (uuid_hex12 : String) (now : Nat) : WebhookOutcome :=
  let approval_request := handle_final_qa_checkpoint payload uuid_hex12 now
  let s' := (save_checkpoint_state s payload.workflow_id .final_qa
    payload.content payload.metadata approval_request now).2
  { ack := { status := "received", workflow_id := payload.workflow_id
             checkpoint := "final_qa"
             approval_id := approval_request.approval_id }
    store := s'
    scheduled_cleanup_hours := 24 }

/-- Running a scheduled background cleanup task at a later time. -/
def run_scheduled_cleanup (s : WorkflowStorage) (hours : Nat) (later : Nat) :
    Nat × WorkflowStorage :=
  cleanup_old_workflows_hours s hours later

/-! ## Dictionary lemmas -/

theorem assocGet_assocSet_self {α : Type} (l : List (String × α)) (k : String)
    (v : α) : assocGet (assocSet l k v) k = some v := by
  induction l with
  | nil => simp [assocSet, assocGet]
  | cons p rest ih =>
      obtain ⟨k', v'⟩ := p
      by_cases h : k' = k
      · simp [assocSet, assocGet, h]
      · simp [assocSet, assocGet, h, ih]

theorem assocGet_assocSet_ne {α : Type} (l : List (String × α))
    (k k' : String) (v : α) (h : k ≠ k') :
    assocGet (assocSet l k v) k' = assocGet l k' := by
  induction l with
  | nil => simp [assocSet, assocGet, h]
  | cons p rest ih =>
      obtain ⟨k₀, v₀⟩ := p
      by_cases h₀ : k₀ = k
      · subst h₀
        simp [assocSet, assocGet, h]
      · simp [assocSet, assocGet, h₀, ih]

theorem assocSet_eq_of_get {α : Type} (l : List (String × α)) (k : String)
    (v : α) (h : assocGet l k = some v) : assocSet l k v = l := by
  induction l with
  | nil => simp [assocGet] at h
  | cons p rest ih =>
      obtain ⟨k₀, v₀⟩ := p
      by_cases h₀ : k₀ = k
      · subst h₀
        simp [assocGet] at h
        simp [assocSet, h]
      · simp [assocGet, h₀] at h
        simp [assocSet, h₀, ih h]

theorem assocSet_assocSet {α : Type} (l : List (String × α)) (k : String)
    (v v' : α) : assocSet (assocSet l k v) k v' = assocSet l k v' := by
  induction l with
  | nil => simp [assocSet]
  | cons p rest ih =>
      obtain ⟨k₀, v₀⟩ := p
      by_cases h₀ : k₀ = k
      · simp [assocSet, h₀]
      · simp [assocSet, h₀, ih]

/-! ## Concrete fixtures used by counterexamples and witnesses -/

/-- A sample metadata dict. -/
def mdEx : Metadata :=
  ⟨some "Acme", some "AI in Health", some "blog", some "pros", some "/TN/A3"⟩

/-- Approval request issued at the brand-voice checkpoint (time 1). -/
def reqA : ApprovalRequest :=
  { approval_id := "appr_a", workflow_id := "wf1"
    checkpoint_type := .brand_voice, title := "t1", description := "d1"
    content := "c1", questions := [], options := ["approve", "reject", "revise"]
    metadata := ⟨none, none, none, none, none⟩, created_at := 1
    priority := "high" }

/-- Approval request issued at the style-compliance checkpoint (time 2). -/
def reqB : ApprovalRequest :=
  { approval_id := "appr_b", workflow_id := "wf1"
    checkpoint_type := .style_compliance, title := "t2", description := "d2"
    content := "c2", questions := [], options := ["approve", "reject", "revise"]
    metadata := ⟨none, none, none, none, none⟩, created_at := 2
    priority := "medium" }

/-- Store after one brand-voice checkpoint for `wf1`: awaiting approval at
brand_voice. -/
def cst1 : WorkflowStorage :=
  (save_checkpoint_state emptyStorage "wf1" .brand_voice "c1" mdEx reqA 1).2

/-- Store after `wf1` reached brand_voice (time 1) and then style_compliance
(time 2): awaiting approval at style_compliance, registry holds both
approvals. -/
def cst2 : WorkflowStorage :=
  (save_checkpoint_state cst1 "wf1" .style_compliance "c2" mdEx reqB 2).2

/-- A decision whose `checkpoint` field (final_qa) differs from `wf1`'s
recorded checkpoint in `cst1` (brand_voice). -/
def respMismatch : ApprovalResponse :=
  { decision := .approve, checkpoint := .final_qa, feedback := "ok"
    reviewer_name := none, comments := none, specific_changes := []
    timestamp := 5 }

/-- Store holding `wf1` created at time 10, with one recorded decision at
time 11, status set to APPROVED at time 12. -/
def cst3 : WorkflowStorage :=
  (update_workflow_status
    (record_approval_decision
      (create_workflow emptyStorage "wf1" "Acme" "AI in Health" "blog"
        "pros" "/TN/A3" 10).2
      "wf1" .brand_voice .approve (some "good") 11).2
    "wf1" .approved none 12).2

/-- The `wf1` record held in `cst3`. -/
def wfApprovedEx : Workflow :=
  { workflow_id := "wf1", client_name := "Acme", topic := "AI in Health"
    content_type := "blog", audience := "pros", ai_language_code := "/TN/A3"
    status := .approved, current_checkpoint := none
    created_at := 10, updated_at := 12, task_outputs := []
    approval_history := [⟨.brand_voice, .approve, some "good", 11⟩]
    content := "", metadata := ⟨none, none, none, none, none⟩
    approval_request := none, checkpoint_type := none
    approval_response := none }

/-! ## Claim C1 — checkpoint mismatch handling -/

/-- C1 counterexample: in `cst1`, `wf1` is AWAITING_APPROVAL with recorded
checkpoint brand_voice, and `respMismatch` carries checkpoint final_qa.  The
submission is NOT rejected: it returns a success body (computed from the
workflow's brand_voice checkpoint) and the record IS changed — status becomes
APPROVED and `updated_at` moves from 1 to 5.  So the claim that a
checkpoint-mismatched decision is rejected with CheckpointMismatch and leaves
the record unchanged is false. -/
theorem checkpoint_mismatch_accepted_cex :
    (get_workflow cst1 "wf1").map (fun w => w.current_checkpoint) =
      some (some .brand_voice) ∧
    respMismatch.checkpoint = .final_qa ∧
    (get_workflow cst1 "wf1").map (fun w => w.status) =
      some .awaiting_approval ∧
    (submit_approval cst1 "wf1" respMismatch 5).1 =
      .ok ⟨"wf1", .approve, "proceed_to_content_strategy",
        "Brand voice approved. Content Strategy task will begin.", true⟩ ∧
    (get_workflow (submit_approval cst1 "wf1" respMismatch 5).2 "wf1").map
      (fun w => w.status) = some .approved ∧
    (get_workflow (submit_approval cst1 "wf1" respMismatch 5).2 "wf1").map
      (fun w => w.updated_at) = some 5 :=
  ⟨by decide, by decide, by decide, by rfl, by decide, by decide⟩

/-- C1 (amended): a decision whose `checkpoint` differs from the workflow's
recorded checkpoint while the workflow is AWAITING_APPROVAL is not rejected —
no CheckpointMismatch check exists.  It is processed against the workflow's
recorded `checkpoint_type` (the response's `checkpoint` is ignored), and the
record is mutated: status set per the decision, `approval_response` stored,
`updated_at` bumped. -/
theorem submit_mismatch_processed (s : WorkflowStorage) (id : String)
    (w : Workflow) (ct : CheckpointType) (resp : ApprovalResponse) (now : Nat)
    (hw : get_workflow s id = some w)
    (hst : w.status = .awaiting_approval)
    (hct : w.checkpoint_type = some ct)
    (_hmm : resp.checkpoint ≠ ct) :
    (submit_approval s id resp now).1 =
      .ok { workflow_id := id, decision := resp.decision,
            next_action := (process_approval_decision ct resp).next_action,
            message := (process_approval_decision ct resp).message,
            auto_resume := true } ∧
    get_workflow (submit_approval s id resp now).2 id =
      some { w with
        status := statusOfDecision resp.decision
        updated_at := now
        approval_response := some resp } := by
  rw [get_workflow] at hw
  obtain ⟨wid, cn, tp, cty, aud, alc, st, cc, ca, ua, to_, ah, co, md, ar,
    cpt, are⟩ := w
  simp only at hst hct
  subst hst hct
  simp [submit_approval, get_workflow, update_workflow_status, hw,
    assocGet_assocSet_self]

/-- Witness for `submit_mismatch_processed` at the concrete store `cst1`. -/
theorem submit_mismatch_processed_witness :
    (submit_approval cst1 "wf1" respMismatch 5).1 =
      .ok { workflow_id := "wf1", decision := respMismatch.decision,
            next_action :=
              (process_approval_decision .brand_voice respMismatch).next_action,
            message :=
              (process_approval_decision .brand_voice respMismatch).message,
            auto_resume := true } :=
  (submit_mismatch_processed cst1 "wf1"
    ((get_workflow cst1 "wf1").get (by decide)) .brand_voice respMismatch 5
    (by decide) (by decide) (by decide) (by decide)).1

/-! ## Claim C3 — createWorkflow on an existing id -/

/-- C3 counterexample: `cst3` holds `wf1` with status APPROVED, one history
entry, created_at 10.  Calling `create_workflow` again with the same id does
not fail and does not return the existing record: it resets the stored record
to fresh initial values (status IN_PROGRESS, empty history, created_at 20). -/
theorem create_workflow_overwrites_cex :
    (get_workflow cst3 "wf1").map (fun w => w.status) = some .approved ∧
    (get_workflow cst3 "wf1").map (fun w => w.approval_history.length) =
      some 1 ∧
    (get_workflow cst3 "wf1").map (fun w => w.created_at) = some 10 ∧
    (get_workflow
        (create_workflow cst3 "wf1" "Other" "T2" "x" "y" "" 20).2 "wf1") =
      some (freshWorkflow "wf1" "Other" "T2" "x" "y" "" 20) ∧
    (freshWorkflow "wf1" "Other" "T2" "x" "y" "" 20).status = .in_progress ∧
    (freshWorkflow "wf1" "Other" "T2" "x" "y" "" 20).approval_history = [] ∧
    (freshWorkflow "wf1" "Other" "T2" "x" "y" "" 20).created_at = 20 := by
  refine ⟨by decide, by decide, by decide, ?_, by decide, by decide, by decide⟩
  simp [create_workflow, get_workflow, assocGet_assocSet_self]

/-- C3 (amended): `create_workflow` on an id already present neither fails
(there is no DuplicateWorkflow error) nor returns the existing record; it
unconditionally overwrites the entry with a fresh record — status IN_PROGRESS,
empty approval_history, created_at reset to the call time. -/
theorem create_workflow_overwrites (s : WorkflowStorage)
    (id cn tp cty aud alc : String) (now : Nat) :
    (create_workflow s id cn tp cty aud alc now).1 =
      freshWorkflow id cn tp cty aud alc now ∧
    get_workflow (create_workflow s id cn tp cty aud alc now).2 id =
      some (freshWorkflow id cn tp cty aud alc now) ∧
    (freshWorkflow id cn tp cty aud alc now).status = .in_progress ∧
    (freshWorkflow id cn tp cty aud alc now).approval_history = [] ∧
    (freshWorkflow id cn tp cty aud alc now).created_at = now := by
  refine ⟨rfl, ?_, rfl, rfl, rfl⟩
  simp [create_workflow, get_workflow, assocGet_assocSet_self]

/-! ## Claim C4 — submit-approval preconditions -/

/-- C4: submitting a decision for an unknown workflow id fails with the 404
NotFound error; submitting for a workflow whose status is not
AWAITING_APPROVAL fails with the 400 InvalidState error whose detail string
ends in the workflow's current status; both error branches return the store
unchanged. -/
theorem submit_approval_error_guards (s : WorkflowStorage) (id : String)
    (resp : ApprovalResponse) (now : Nat) :
    (get_workflow s id = none →
      submit_approval s id resp now = (.error .notFound, s) ∧
      errorStatusCode .notFound = 404) ∧
    (∀ w, get_workflow s id = some w → w.status ≠ .awaiting_approval →
      submit_approval s id resp now = (.error (.invalidState w.status), s) ∧
      errorStatusCode (.invalidState w.status) = 400 ∧
      errorDetail (.invalidState w.status) =
        "Workflow not awaiting approval. Current status: " ++
          statusValue w.status) := by
  constructor
  · intro h
    rw [get_workflow] at h
    exact ⟨by simp [submit_approval, h], rfl⟩
  · intro w hw hst
    rw [get_workflow] at hw
    exact ⟨by simp [submit_approval, hw, hst], rfl, rfl⟩

/-- Witness for `submit_approval_error_guards`: the 404 branch on the empty
store and the 400 branch on `cst3` (whose `wf1` is APPROVED). -/
theorem submit_approval_error_guards_witness :
    submit_approval emptyStorage "missing" respMismatch 5 =
      (.error .notFound, emptyStorage) ∧
    submit_approval cst3 "wf1" respMismatch 5 =
      (.error (.invalidState wfApprovedEx.status), cst3) :=
  ⟨((submit_approval_error_guards emptyStorage "missing" respMismatch 5).1
      (by decide)).1,
   ((submit_approval_error_guards cst3 "wf1" respMismatch 5).2 wfApprovedEx
      (by decide) (by decide)).1⟩

/-! ## Claim C5 — decision table completeness -/

/-- C5: for each of the nine (checkpoint, decision) combinations, the decision
processor returns the next_action of the table in spec §4.4, and both
next_action and message are non-empty. -/
theorem decision_table_complete (ct : CheckpointType)
    (resp : ApprovalResponse) :
    (process_approval_decision ct resp).next_action =
      (match ct, resp.decision with
       | .brand_voice, .approve => "proceed_to_content_strategy"
       | .brand_voice, .reject => "restart_from_brand_voice"
       | .brand_voice, .revise => "revise_brand_voice"
       | .style_compliance, .approve => "proceed_to_final_qa"
       | .style_compliance, .reject => "restart_from_content_generation"
       | .style_compliance, .revise => "revise_style_compliance"
       | .final_qa, .approve => "deliver_content"
       | .final_qa, .reject => "restart_from_style_compliance"
       | .final_qa, .revise => "revise_final_qa") ∧
    (process_approval_decision ct resp).next_action ≠ "" ∧
    (process_approval_decision ct resp).message ≠ "" := by
  obtain ⟨d, cp, fb, rn, cm, sc, ts⟩ := resp
  cases ct <;> cases d <;>
    refine ⟨rfl, ?_, ?_⟩ <;>
    simp [process_approval_decision, get_approval_info, get_rejection_info,
      get_revision_info, checkpointValue, checkpointTitled]

/-! ## Claim C2 — at-most-one pending entry per workflow id -/

/-- C2 counterexample: after a brand_voice checkpoint (time 1) followed by a
style_compliance checkpoint (time 2) for the same workflow — a sequence of two
`save_checkpoint_state` calls on the empty store — `get_pending_approvals`
lists `wf1` twice: the earlier approval request is not superseded. -/
theorem pending_duplicate_workflow_cex :
    (get_pending_approvals cst2).map (fun p => p.workflow_id) =
      ["wf1", "wf1"] ∧
    (get_pending_approvals cst2).map (fun p => p.approval_id) =
      ["appr_a", "appr_b"] := by
  exact ⟨by decide, by decide⟩

/-- If `g` yields, on success, an element whose `f`-image is the key of its
input, then the mapped filterMap is a sublist of the mapped keys. -/
theorem mapped_filterMap_sublist {α β γ : Type} (g : α → Option β) (f : β → γ)
    (key : α → γ) (hfg : ∀ a b, g a = some b → f b = key a) (l : List α) :
    List.Sublist ((l.filterMap g).map f) (l.map key) := by
  induction l with
  | nil => simp
  | cons a l ih =>
      cases hga : g a with
      | none =>
          simp only [List.filterMap_cons, hga, List.map_cons]
          exact ih.cons (key a)
      | some b =>
          simp only [List.filterMap_cons, hga, List.map_cons,
            hfg a b hga]
          exact ih.cons₂ (key a)

/-- A registry entry that survives the pending filter keeps its key as
`approval_id`. -/
theorem summaryOf_approval_id (s : WorkflowStorage)
    (p : String × ApprovalRequest) (q : PendingApprovalSummary)
    (hq : summaryOf s p = some q) : q.approval_id = p.1 := by
  unfold summaryOf at hq
  split at hq
  · exact Option.noConfusion hq
  · split at hq
    · cases hq
      rfl
    · exact Option.noConfusion hq

/-- C2 (amended): `get_pending_approvals` contains at most one entry per
approval id (the registry's keys are unique), not per workflow id — entering
AWAITING_APPROVAL at a new checkpoint does not supersede the workflow's
earlier pending approval request, which reappears in the listing. -/
theorem pending_unique_per_approval_id (s : WorkflowStorage)
    (h : (s.approvals.map (fun p => p.1)).Nodup) :
    ((get_pending_approvals s).map (fun p => p.approval_id)).Nodup := by
  have hperm : List.Perm (get_pending_approvals s)
      (s.approvals.filterMap (summaryOf s)) :=
    List.perm_insertionSort _ _
  have hmap := hperm.map (fun p => p.approval_id)
  refine hmap.nodup_iff.mpr ?_
  have hsub := mapped_filterMap_sublist (summaryOf s)
    (fun q => q.approval_id) (fun p => p.1)
    (fun p q hq => summaryOf_approval_id s p q hq) s.approvals
  exact List.Nodup.sublist hsub h

/-- Witness for `pending_unique_per_approval_id` at the concrete store
`cst2`. -/
theorem pending_unique_per_approval_id_witness :
    (cst2.approvals.map (fun p => p.1)).Nodup ∧
    ((get_pending_approvals cst2).map (fun p => p.approval_id)).Nodup :=
  ⟨by decide, pending_unique_per_approval_id cst2 (by decide)⟩

/-! ## Claim C6 — saveCheckpointState semantics -/

/-- C6: `save_checkpoint_state` reports success, registers the approval
request under its approval_id, and writes the workflow record: when the id is
unknown, a fresh record is first created from the metadata with the
"Unknown"/"unknown"/"" fallbacks; in both cases content, metadata,
checkpoint_type, current_checkpoint are overwritten, status becomes
AWAITING_APPROVAL, the approval request is stored, and updated_at is set to
the call time. -/
theorem save_checkpoint_state_spec (s : WorkflowStorage) (id : String)
    (cpt : CheckpointType) (content : String) (md : Metadata)
    (req : ApprovalRequest) (now : Nat) :
    (save_checkpoint_state s id cpt content md req now).1 = true ∧
    assocGet (save_checkpoint_state s id cpt content md req now).2.approvals
      req.approval_id = some req ∧
    (get_workflow s id = none →
      get_workflow (save_checkpoint_state s id cpt content md req now).2 id =
        some { freshWorkflow id (md.client_name.getD "Unknown")
            (md.topic.getD "Unknown") (md.content_type.getD "unknown")
            (md.audience.getD "unknown") (md.ai_language_code.getD "") now with
          content := content
          metadata := md
          checkpoint_type := some cpt
          current_checkpoint := some cpt
          status := .awaiting_approval
          approval_request := some req
          updated_at := now }) ∧
    (∀ w, get_workflow s id = some w →
      get_workflow (save_checkpoint_state s id cpt content md req now).2 id =
        some { w with
          content := content
          metadata := md
          checkpoint_type := some cpt
          current_checkpoint := some cpt
          status := .awaiting_approval
          approval_request := some req
          updated_at := now }) := by
  refine ⟨rfl, ?_, ?_, ?_⟩
  · simp [save_checkpoint_state, assocGet_assocSet_self]
  · intro h
    rw [get_workflow] at h
    simp [save_checkpoint_state, get_workflow, h, assocGet_assocSet_self]
  · intro w hw
    rw [get_workflow] at hw
    simp [save_checkpoint_state, get_workflow, hw, assocGet_assocSet_self]

/-- Witness for `save_checkpoint_state_spec`: the create-first path on the
empty store (metadata `mdEx` supplies every field) and the overwrite path on
`cst3`. -/
theorem save_checkpoint_state_spec_witness :
    get_workflow (save_checkpoint_state emptyStorage "wf1" .brand_voice "c1"
        mdEx reqA 1).2 "wf1" =
      some { freshWorkflow "wf1" (mdEx.client_name.getD "Unknown")
          (mdEx.topic.getD "Unknown") (mdEx.content_type.getD "unknown")
          (mdEx.audience.getD "unknown") (mdEx.ai_language_code.getD "") 1 with
        content := "c1"
        metadata := mdEx
        checkpoint_type := some .brand_voice
        current_checkpoint := some .brand_voice
        status := .awaiting_approval
        approval_request := some reqA
        updated_at := 1 } ∧
    get_workflow (save_checkpoint_state cst3 "wf1" .final_qa "c9" mdEx reqB
        30).2 "wf1" =
      some { wfApprovedEx with
        content := "c9"
        metadata := mdEx
        checkpoint_type := some .final_qa
        current_checkpoint := some .final_qa
        status := .awaiting_approval
        approval_request := some reqB
        updated_at := 30 } :=
  ⟨((save_checkpoint_state_spec emptyStorage "wf1" .brand_voice "c1" mdEx reqA
      1).2.2.1 (by decide)),
   ((save_checkpoint_state_spec cst3 "wf1" .final_qa "c9" mdEx reqB
      30).2.2.2 wfApprovedEx (by decide))⟩

/-! ## Claim C7 — pending listing contents and order -/

/-- Characterisation of the pending filter applied to one registry entry. -/
theorem summaryOf_eq_some (s : WorkflowStorage) (p : String × ApprovalRequest)
    (q : PendingApprovalSummary) :
    summaryOf s p = some q ↔
      ∃ w, get_workflow s p.2.workflow_id = some w ∧
        w.status = .awaiting_approval ∧
        q = ⟨p.2.workflow_id, p.2.checkpoint_type, w.client_name, w.topic,
          p.2.created_at, p.1⟩ := by
  unfold summaryOf get_workflow
  cases h : assocGet s.workflows p.2.workflow_id with
  | none => simp
  | some w =>
      by_cases hs : w.status = .awaiting_approval
      · simp only [hs, if_pos, Option.some.injEq]
        constructor
        · intro hq
          exact ⟨w, rfl, hs, hq.symm⟩
        · rintro ⟨w', hw', _, rfl⟩
          cases hw'
          rfl
      · simp only [hs, if_neg, not_false_iff]
        constructor
        · intro hq
          exact Option.noConfusion hq
        · rintro ⟨w', hw', hs', rfl⟩
          cases hw'
          exact absurd hs' hs

/-- C7: `get_pending_approvals` lists exactly the registered approvals whose
owning workflow exists with status AWAITING_APPROVAL (with the summary fields
drawn from the approval and its workflow), and the result is sorted ascending
by `created_at`. -/
theorem get_pending_approvals_spec (s : WorkflowStorage) :
    (∀ q, q ∈ get_pending_approvals s ↔
      ∃ aid req, (aid, req) ∈ s.approvals ∧
        ∃ w, get_workflow s req.workflow_id = some w ∧
          w.status = .awaiting_approval ∧
          q = ⟨req.workflow_id, req.checkpoint_type, w.client_name, w.topic,
            req.created_at, aid⟩) ∧
    List.Sorted byCreatedAt (get_pending_approvals s) := by
  constructor
  · intro q
    unfold get_pending_approvals
    rw [List.mem_insertionSort, List.mem_filterMap]
    constructor
    · rintro ⟨p, hp, hq⟩
      obtain ⟨w, hw, hst, hq'⟩ := (summaryOf_eq_some s p q).mp hq
      exact ⟨p.1, p.2, hp, w, hw, hst, hq'⟩
    · rintro ⟨aid, req, hmem, w, hw, hst, hq'⟩
      exact ⟨(aid, req), hmem,
        (summaryOf_eq_some s (aid, req) q).mpr ⟨w, hw, hst, hq'⟩⟩
  · exact List.sorted_insertionSort byCreatedAt _

/-! ## Claim C8 — idempotence of saveCheckpointState -/

/-- C8: two consecutive `save_checkpoint_state` calls with identical arguments
leave the workflow in the same final state — AWAITING_APPROVAL, same content
and checkpoint — the second result differing from the first only in
`updated_at`; the approval registry is unchanged by the repeat. -/
theorem save_checkpoint_state_idempotent (s : WorkflowStorage) (id : String)
    (cpt : CheckpointType) (content : String) (md : Metadata)
    (req : ApprovalRequest) (t1 t2 : Nat) :
    ∃ w1,
      get_workflow (save_checkpoint_state s id cpt content md req t1).2 id =
        some w1 ∧
      w1.status = .awaiting_approval ∧
      w1.content = content ∧
      w1.current_checkpoint = some cpt ∧
      w1.updated_at = t1 ∧
      get_workflow (save_checkpoint_state
          (save_checkpoint_state s id cpt content md req t1).2
          id cpt content md req t2).2 id =
        some { w1 with updated_at := t2 } ∧
      (save_checkpoint_state
          (save_checkpoint_state s id cpt content md req t1).2
          id cpt content md req t2).2.approvals =
        (save_checkpoint_state s id cpt content md req t1).2.approvals := by
  refine ⟨_, assocGet_assocSet_self _ _ _, rfl, rfl, rfl, rfl, ?_, ?_⟩
  · simp [get_workflow, save_checkpoint_state, assocGet_assocSet_self]
  · simp [save_checkpoint_state, assocSet_assocSet]

/-! ## Claim C9 — cleanup removes exactly the stale workflows -/

/-- C9: `cleanup_old_workflows` keeps exactly the workflows whose `updated_at`
is not older than `now - days` — the predicate reads only `updated_at`, never
the status — returns the number removed, leaves the approval registry
untouched, and removes nothing (returning 0) when no workflow is older than
the retention window. -/
theorem cleanup_old_workflows_spec (s : WorkflowStorage) (days now : Nat) :
    (∀ p, p ∈ (cleanup_old_workflows s days now).2.workflows ↔
      p ∈ s.workflows ∧ ¬ p.2.updated_at < now - days * secondsPerDay) ∧
    (cleanup_old_workflows s days now).1 =
      (s.workflows.filter
        (fun p => p.2.updated_at < now - days * secondsPerDay)).length ∧
    (cleanup_old_workflows s days now).2.approvals = s.approvals ∧
    ((∀ p ∈ s.workflows, ¬ p.2.updated_at < now - days * secondsPerDay) →
      cleanup_old_workflows s days now = (0, s)) := by
  refine ⟨?_, rfl, rfl, ?_⟩
  · intro p
    simp [cleanup_old_workflows, List.mem_filter]
  · intro h
    have h1 : s.workflows.filter
        (fun p => p.2.updated_at < now - days * secondsPerDay) = [] := by
      rw [List.filter_eq_nil_iff]
      intro p hp
      simpa using h p hp
    have h2 : s.workflows.filter
        (fun p => ¬ p.2.updated_at < now - days * secondsPerDay) =
          s.workflows := by
      rw [List.filter_eq_self]
      intro p hp
      simpa using h p hp
    simp only [cleanup_old_workflows]
    rw [h1, h2]
    rfl

/-- Witness for `cleanup_old_workflows_spec`: in `cst2` (latest update at
time 2) a 30-day retention at time 100 removes nothing. -/
theorem cleanup_old_workflows_spec_witness :
    cleanup_old_workflows cst2 30 100 = (0, cst2) :=
  (cleanup_old_workflows_spec cst2 30 100).2.2.2 (by decide)

/-! ## Claim C10 — background cleanup scheduled by the HITL endpoints -/

/-- C10: the module-level cleanup wrapper maps hours to `max 1 (hours / 24)`
days; every HITL webhook endpoint saves checkpoint state and schedules that
wrapper with hours = 24; running the scheduled sweep therefore removes every
workflow, whatever its status, whose `updated_at` is more than one day old. -/
theorem hitl_cleanup_schedule_spec (s : WorkflowStorage)
    (payload : WebhookPayload) (u : String) (now h later : Nat) :
    hoursToDays 24 = 1 ∧
    hoursToDays h = max 1 (h / 24) ∧
    (brand_voice_webhook s payload u now).scheduled_cleanup_hours = 24 ∧
    (style_compliance_webhook s payload u now).scheduled_cleanup_hours = 24 ∧
    (final_qa_webhook s payload u now).scheduled_cleanup_hours = 24 ∧
    (brand_voice_webhook s payload u now).store =
      (save_checkpoint_state s payload.workflow_id .brand_voice
        payload.content payload.metadata
        (handle_brand_voice_checkpoint payload u now) now).2 ∧
    (style_compliance_webhook s payload u now).store =
      (save_checkpoint_state s payload.workflow_id .style_compliance
        payload.content payload.metadata
        (handle_style_compliance_checkpoint payload u now) now).2 ∧
    (final_qa_webhook s payload u now).store =
      (save_checkpoint_state s payload.workflow_id .final_qa
        payload.content payload.metadata
        (handle_final_qa_checkpoint payload u now) now).2 ∧
    run_scheduled_cleanup s 24 later = cleanup_old_workflows s 1 later ∧
    (∀ p, p ∈ (run_scheduled_cleanup s 24 later).2.workflows ↔
      p ∈ s.workflows ∧ ¬ p.2.updated_at < later - secondsPerDay) := by
  refine ⟨rfl, ?_, rfl, rfl, rfl, rfl, rfl, rfl, rfl, ?_⟩
  · simp only [hoursToDays]
    rcases Nat.lt_or_ge (h / 24) 1 with h' | h'
    · simp [Nat.lt_one_iff.mp h']
    · rw [if_neg (Nat.not_lt.mpr h'), max_eq_right h']
  · intro p
    simp [run_scheduled_cleanup, cleanup_old_workflows_hours,
      cleanup_old_workflows, hoursToDays, List.mem_filter, secondsPerDay]

end Spinscribe
